import Mathlib

/-
Verification of the HTTP responder in src/index.js.

The source is an Express application:

  const express = require('express');
  const app = express();
  const PORT = 3000; // You can change the port if needed

  app.get('/', (req, res) => {
    res.send('Hello World! I am new here 🚀');
  });

  app.listen(PORT, () => {
    console.log(`Server is running on http://localhost:` + PORT);
  });

The embedding models the application together with the documented behavior of
the Express 4 / Node.js stack it runs on, since the observable responses are
produced jointly by the registered route and the framework defaults:
 - `res.send(string)` sets status 200, `Content-Type: text/html; charset=utf-8`
   and `Content-Length`, and strips the body for HEAD requests;
 - a GET route also matches HEAD requests;
 - an unmatched OPTIONS request on a routed path is answered with 200 and an
   `Allow` header by the router;
 - any other unmatched request falls through to finalhandler, which produces a
   404 with an HTML body containing "Cannot METHOD path" (HTML-escaped);
 - the application registers no 'error', 'clientError' or signal handlers, so
   the corresponding Node.js defaults apply (modelled below where a claim
   needs them).
Headers irrelevant to every claim (Date, ETag, Connection keep-alive) are
omitted; X-Powered-By, Content-Type, Content-Length and Allow are kept.
-/

/-- Standard HTTP verbs (the router dispatches on these). -/
inductive Method where
  | GET
  | HEAD
  | POST
  | PUT
  | DELETE
  | PATCH
  | OPTIONS
deriving DecidableEq, Repr

/-- Render a verb the way it appears in an HTTP request line. -/
def Method.name : Method → String
  | .GET => "GET"
  | .HEAD => "HEAD"
  | .POST => "POST"
  | .PUT => "PUT"
  | .DELETE => "DELETE"
  | .PATCH => "PATCH"
  | .OPTIONS => "OPTIONS"

/-- A parsed HTTP request: method, pathname, query string, headers, body.
Express matches routes on the pathname only, so path and query are separate. -/
structure Request where
  method : Method
  path : String
  query : String
  headers : List (String × String)
  body : String
deriving DecidableEq, Repr

/-- An HTTP response: status code, headers, body. -/
structure Response where
  status : Nat
  headers : List (String × String)
  body : String
deriving DecidableEq, Repr

/-- The string passed to `res.send` in src/index.js line 8. -/
def greeting : String := "Hello World! I am new here 🚀"

/-- src/index.js line 5: `const PORT = 3000;` — a hardcoded constant. -/
def PORT : Nat := 3000

/-- The port as a function of the process environment. src/index.js never
reads `process.env`, so the result is the constant 3000 for every
environment, including one that sets a PORT variable. -/
def portOf (_env : List (String × String)) : Nat := 3000

/-- A route table entry: method, path, and the string its handler passes to
`res.send`. -/
structure Route where
  method : Method
  path : String
  sendBody : String
deriving DecidableEq, Repr

/-- The route table built at module load: the single `app.get('/', ...)`
registration of src/index.js lines 7–9. -/
def routes : List Route := [{ method := Method.GET, path := "/", sendBody := greeting }]

/-- Express `res.send(string)` with no Content-Type previously set:
status 200, `Content-Type: text/html; charset=utf-8`, Content-Length in
bytes of the UTF-8 body; for a HEAD request the headers are computed the
same way but the body is not written. -/
def send (isHead : Bool) (body : String) : Response :=
  { status := 200
    headers := [("X-Powered-By", "Express"),
                ("Content-Type", "text/html; charset=utf-8"),
                ("Content-Length", toString body.utf8ByteSize)]
    body := if isHead then "" else body }

/-- Express route matching for one entry: exact path equality, and the method
matches either exactly or via the GET-also-serves-HEAD rule of the router. -/
def routeMatches (r : Route) (req : Request) : Bool :=
  r.path == req.path &&
    (r.method == req.method || (r.method == Method.GET && req.method == Method.HEAD))

/-- The escape-html transformation finalhandler applies to the message before
embedding it in the error page (ampersand, quotes, angle brackets). -/
def escapeHtmlChar (c : Char) : String :=
  if c == '&' then "&amp;"
  else if c.toNat == 34 then "&quot;"
  else if c.toNat == 39 then "&#39;"
  else if c == '<' then "&lt;"
  else if c == '>' then "&gt;"
  else String.singleton c

/-- HTML-escape a string character by character. -/
def escapeHtml (s : String) : String :=
  String.join (s.toList.map escapeHtmlChar)

/-- The message finalhandler produces for an unmatched request. -/
def notFoundMessage (req : Request) : String :=
  "Cannot " ++ req.method.name ++ " " ++ req.path

/-- The HTML error document finalhandler writes for a 404. -/
def notFoundBody (req : Request) : String :=
  "<!DOCTYPE html>\n<html lang=\"en\">\n<head>\n<meta charset=\"utf-8\">\n<title>Error</title>\n</head>\n<body>\n<pre>"
    ++ escapeHtml (notFoundMessage req)
    ++ "</pre>\n</body>\n</html>\n"

/-- The 404 response finalhandler produces when no route matches. The HTML
document and its headers (Content-Length included) are computed for every
method, but when the request method is HEAD finalhandler ends the response
without writing the body. -/
def notFound (req : Request) : Response :=
  { status := 404
    headers := [("X-Powered-By", "Express"),
                ("Content-Type", "text/html; charset=utf-8"),
                ("Content-Length", toString (notFoundBody req).utf8ByteSize)]
    body := if req.method == Method.HEAD then "" else notFoundBody req }

/-- The Allow header value the router computes for an OPTIONS request on a
routed path: the registered methods, with HEAD added when GET is present. -/
def allowHeader (table : List Route) (path : String) : String :=
  let ms := (table.filter (fun r => r.path == path)).map (fun r => r.method.name)
  let ms := if table.any (fun r => r.path == path && r.method == Method.GET)
            then ms ++ ["HEAD"] else ms
  String.intercalate "," ms

/-- The router's default answer to an unmatched OPTIONS request on a path
that has routes: status 200, Allow header, and the allow list as the body
(sent through `res.send`). -/
def optionsResponse (table : List Route) (req : Request) : Response :=
  let a := allowHeader table req.path
  { status := 200
    headers := [("X-Powered-By", "Express"),
                ("Allow", a),
                ("Content-Type", "text/html; charset=utf-8"),
                ("Content-Length", toString a.utf8ByteSize)]
    body := a }

/-- Dispatch one request against a route table, following the Express 4
router: first matching route wins and its handler runs (here every handler is
a `res.send` of a fixed string); an unmatched OPTIONS on a routed path gets
the default OPTIONS answer; everything else falls to finalhandler's 404. -/
def dispatch (table : List Route) (req : Request) : Response :=
  match table.find? (fun r => routeMatches r req) with
  | some r => send (req.method == Method.HEAD) r.sendBody
  | none =>
      if req.method == Method.OPTIONS && table.any (fun r => r.path == req.path) then
        optionsResponse table req
      else
        notFound req

/-- The application's request handler: dispatch against the static table. -/
def handle (req : Request) : Response :=
  dispatch routes req

/-- The whole observable server state: the route table and the bound port.
src/index.js holds no other state and mutates nothing after startup. -/
structure ServerState where
  routeTable : List Route
  boundPort : Nat
deriving DecidableEq, Repr

/-- The state after startup: the static route table, bound to PORT. -/
def initState : ServerState := { routeTable := routes, boundPort := PORT }

/-- Handling one request: produce a response from the current state. The
handler reads the table and writes nothing, so the state is returned as is. -/
def handleSt (s : ServerState) (req : Request) : Response × ServerState :=
  (dispatch s.routeTable req, s)

/-- Serve the same request n times in sequence, threading the state. -/
def serveN : Nat → ServerState → Request → List Response × ServerState
  | 0, s, _ => ([], s)
  | n + 1, s, req =>
      let (resp, s1) := handleSt s req
      let (rest, s2) := serveN n s1 req
      (resp :: rest, s2)

/-- The single line the `app.listen` callback logs (src/index.js line 12). -/
def startupLog : String := "Server is running on http://localhost:" ++ toString PORT

/-- Outcome of process startup: either the server is running (with the list
of log lines emitted so far), or the process crashed with an exit code and a
message on standard error. -/
inductive StartOutcome where
  | running (logs : List String)
  | crashed (exitCode : Nat) (message : String)
deriving DecidableEq, Repr

/-- Result of the attempt to bind the listening socket. -/
inductive BindResult where
  | ok
  | addrInUse
  | osError (code : String)
deriving DecidableEq, Repr

/-- Models `app.listen(PORT, cb)` under Node.js semantics. src/index.js
registers no 'error' handler on the server, so a bind failure (EADDRINUSE or
any other OS error) is raised as an uncaught exception: the process prints
the error and exits with code 1, with no retry. On success the callback runs
once and logs the startup line. -/
def startServer : BindResult → StartOutcome
  | .ok => .running [startupLog]
  | .addrInUse =>
      .crashed 1 ("Error: listen EADDRINUSE: address already in use :::" ++ toString PORT)
  | .osError c => .crashed 1 ("Error: listen " ++ c)

/-- Result of processing one TCP connection at the HTTP layer. -/
structure ConnResult where
  response : Response
  connClosed : Bool
  listenerAlive : Bool
deriving DecidableEq, Repr

/-- The raw response Node.js writes for an unparseable request. -/
def badRequest : Response :=
  { status := 400, headers := [("Connection", "close")], body := "" }

/-- Models Node's HTTP layer for one connection. The parser either fails
(`none`) or yields a request. src/index.js registers no 'clientError'
handler, so a parse failure takes Node's default: write a 400, destroy that
socket, and keep the listener accepting; a parsed request is answered by the
application handler over an open, still-listening server. -/
def processConnection (s : ServerState) (parsed : Option Request) :
    ConnResult × ServerState :=
  match parsed with
  | none =>
      ({ response := badRequest, connClosed := true, listenerAlive := true }, s)
  | some req =>
      ({ response := dispatch s.routeTable req, connClosed := false,
         listenerAlive := true }, s)

/-- Standard termination signals. -/
inductive Signal where
  | SIGTERM
  | SIGINT
deriving DecidableEq, Repr

/-- The POSIX signal number. -/
def Signal.number : Signal → Nat
  | .SIGTERM => 15
  | .SIGINT => 2

/-- What the process does on receiving a termination signal. -/
structure ShutdownOutcome where
  exitCode : Nat
  listenerClosedGracefully : Bool
  inFlightCompleted : Bool
deriving DecidableEq, Repr

/-- Models signal delivery. src/index.js installs no signal handlers, so the
Node.js default disposition applies: the process terminates immediately with
status 128 plus the signal number; the listener is not closed gracefully and
in-flight responses are aborted, not drained. -/
def onSignal (sig : Signal) : ShutdownOutcome :=
  { exitCode := 128 + sig.number
    listenerClosedGracefully := false
    inFlightCompleted := false }

/-- Whether `pat` is a prefix of `s`, on character lists (structural, so it
evaluates inside the kernel). -/
def listIsPre : List Char → List Char → Bool
  | [], _ => true
  | _ :: _, [] => false
  | a :: as, b :: bs => a == b && listIsPre as bs

/-- Whether `pat` occurs as a contiguous sublist of `s`. -/
def listHasSub (pat : List Char) : List Char → Bool
  | [] => listIsPre pat []
  | c :: rest => listIsPre pat (c :: rest) || listHasSub pat rest

/-- Whether the string `pat` occurs as a substring of `s`. -/
def containsSub (s pat : String) : Bool :=
  listHasSub pat.toList s.toList

/-- C1 counterexample: the claim asserts a `Content-Type: text/plain` header
and a default greeting of "Hello World!". At the concrete request
`GET /?x=1` the code answers 200, but with no text/plain Content-Type
(Express `res.send(string)` sets text/html; charset=utf-8) and with the body
"Hello World! I am new here 🚀", not "Hello World!". -/
theorem C1_counterexample :
    ("Content-Type", "text/plain") ∉
        (handle { method := Method.GET, path := "/", query := "x=1",
                  headers := [("Accept", "text/plain")], body := "" }).headers ∧
    (handle { method := Method.GET, path := "/", query := "x=1",
              headers := [("Accept", "text/plain")], body := "" }).status = 200 ∧
    (handle { method := Method.GET, path := "/", query := "x=1",
              headers := [("Accept", "text/plain")], body := "" }).body ≠ "Hello World!" := by
  refine ⟨by decide, rfl, by decide⟩

/-- C1 (amended): every GET request for path `/` — whatever its query string,
headers and body — is answered with status 200, Content-Type
`text/html; charset=utf-8`, and a body byte-for-byte equal to the greeting
string of the code, "Hello World! I am new here 🚀". -/
theorem C1_get_root_response (q : String) (hs : List (String × String)) (b : String) :
    handle { method := Method.GET, path := "/", query := q, headers := hs, body := b } =
      { status := 200
        headers := [("X-Powered-By", "Express"),
                    ("Content-Type", "text/html; charset=utf-8"),
                    ("Content-Length", toString greeting.utf8ByteSize)]
        body := greeting } := rfl

/-- C2 counterexample: the claim asserts that every (method, path) other than
(GET, /) is answered 404 with a body containing "Not Found". But `HEAD /` is
served by the GET route with status 200, and the 404 body for
`GET /nonexistent` contains "Cannot GET /nonexistent" and no occurrence of
"Not Found". -/
theorem C2_counterexample :
    (handle { method := Method.HEAD, path := "/", query := "", headers := [],
              body := "" }).status = 200 ∧
    containsSub (handle { method := Method.GET, path := "/nonexistent", query := "",
                          headers := [], body := "" }).body "Not Found" = false ∧
    containsSub (handle { method := Method.GET, path := "/nonexistent", query := "",
                          headers := [], body := "" }).body "Cannot GET /nonexistent" = true := by
  refine ⟨rfl, by decide, by decide⟩

/-- C2 (amended): every request whose path is not `/`, or whose method on `/`
is none of GET, HEAD and OPTIONS (GET's route also serves HEAD, and the
router answers OPTIONS itself), gets the finalhandler 404: status 404 with
the standard HTML body "Cannot METHOD path" — except that a HEAD request
receives the 404 status and headers with an empty body, since finalhandler
ends a HEAD response without writing the document. -/
theorem C2_unmatched_404 (req : Request)
    (h : req.path ≠ "/" ∨
         (req.method ≠ Method.GET ∧ req.method ≠ Method.HEAD ∧ req.method ≠ Method.OPTIONS)) :
    handle req = notFound req ∧ (handle req).status = 404 ∧
    (handle req).body = (if req.method == Method.HEAD then "" else notFoundBody req) := by
  obtain ⟨m, p, q, hs, b⟩ := req
  have hmain : handle ⟨m, p, q, hs, b⟩ = notFound ⟨m, p, q, hs, b⟩ := by
    by_cases hp : p = "/"
    · subst hp
      rcases h with h | ⟨h1, h2, h3⟩
      · exact absurd rfl h
      · cases m <;> simp_all [handle, dispatch, routes, routeMatches]
    · have hp2 : "/" ≠ p := fun hh => hp hh.symm
      cases m <;> simp [handle, dispatch, routes, routeMatches, hp, hp2]
  exact ⟨hmain, by simp [hmain, notFound], by simp [hmain, notFound]⟩

/-- C2 witness: `POST /` is answered with the 404 page. -/
theorem C2_unmatched_404_witness :
    handle { method := Method.POST, path := "/", query := "", headers := [], body := "" } =
      notFound { method := Method.POST, path := "/", query := "", headers := [], body := "" } ∧
    (handle { method := Method.POST, path := "/", query := "", headers := [],
              body := "" }).status = 404 ∧
    (handle { method := Method.POST, path := "/", query := "", headers := [],
              body := "" }).body =
      (if Method.POST == Method.HEAD then ""
       else notFoundBody { method := Method.POST, path := "/", query := "", headers := [],
                           body := "" }) :=
  C2_unmatched_404 _ (Or.inr ⟨by decide, by decide, by decide⟩)

/-- C3: the code hardcodes the port. For every environment — including one
setting PORT=8080 — the effective port is 3000; the PORT variable has no
effect, contradicting the claimed override. -/
theorem C3_port_hardcoded :
    (∀ env, portOf env = 3000) ∧ portOf [("PORT", "8080")] ≠ 8080 :=
  ⟨fun _ => rfl, by decide⟩

/-- C4: if binding fails for any reason (the port already in use, or any
OS-level error), the process — which registers no error handler, so Node's
uncaught-exception default applies — terminates at once with a non-zero exit
code and a descriptive message beginning "Error: listen"; it neither retries
nor hangs (the outcome is `crashed`, not `running`). -/
theorem C4_bind_failure_fail_fast (r : BindResult) (h : r ≠ BindResult.ok) :
    ∃ code msg, startServer r = StartOutcome.crashed code ("Error: listen " ++ msg) ∧
      code ≠ 0 := by
  cases r with
  | ok => exact absurd rfl h
  | addrInUse =>
      exact ⟨1, "EADDRINUSE: address already in use :::3000", by decide, by decide⟩
  | osError c => exact ⟨1, c, rfl, by decide⟩

/-- C4 witness: a second instance on the occupied port crashes with the
EADDRINUSE startup error. -/
theorem C4_bind_failure_fail_fast_witness :
    ∃ code msg,
      startServer BindResult.addrInUse = StartOutcome.crashed code ("Error: listen " ++ msg) ∧
      code ≠ 0 :=
  C4_bind_failure_fail_fast BindResult.addrInUse (by decide)

/-- C5: the handler is deterministic and stateless. Serving any request n
times from any state yields n byte-identical responses — each equal to the
one response `dispatch` (a pure function, so identical across runs) gives —
and the final state equals the initial one: no observable state drift. -/
theorem C5_stateless_idempotent (n : Nat) (s : ServerState) (req : Request) :
    serveN n s req = (List.replicate n (dispatch s.routeTable req), s) := by
  induction n with
  | zero => rfl
  | succ k ih => simp [serveN, handleSt, List.replicate, ih]

/-- C6: successful startup emits exactly one log line, that line states the
bound port (the decimal rendering of PORT occurs in it), and the running
outcome carries no effect besides that log. -/
theorem C6_single_startup_log :
    startServer BindResult.ok = StartOutcome.running [startupLog] ∧
    [startupLog].length = 1 ∧
    containsSub startupLog (toString PORT) = true := by
  refine ⟨rfl, rfl, by decide⟩

/-- C7: the route table has no two entries with the same (method, path), it
is the static `routes` list built at process start, and handling a request
never changes the server state (hence never the table). -/
theorem C7_route_table_static :
    (routes.map (fun r => (r.method, r.path))).Nodup ∧
    initState.routeTable = routes ∧
    ∀ (s : ServerState) (req : Request), (handleSt s req).2 = s :=
  ⟨by simp [routes], rfl, fun _ _ => rfl⟩

/-- C8: a connection whose request fails to parse is answered with status
400 and closed, the listener stays alive, and the server state is unchanged,
so subsequent connections are still accepted — the process never crashes on
malformed input. -/
theorem C8_malformed_request_400 (s : ServerState) :
    (processConnection s none).1.response.status = 400 ∧
    (processConnection s none).1.connClosed = true ∧
    (processConnection s none).1.listenerAlive = true ∧
    (processConnection s none).2 = s :=
  ⟨rfl, rfl, rfl, rfl⟩

/-- C9 counterexample: on SIGTERM the process — having installed no signal
handler — dies at once with status 143, not 0, without closing the listener
gracefully or letting in-flight responses complete. -/
theorem C9_counterexample :
    onSignal Signal.SIGTERM =
      { exitCode := 143, listenerClosedGracefully := false, inFlightCompleted := false } ∧
    (onSignal Signal.SIGTERM).exitCode ≠ 0 := by
  refine ⟨rfl, by decide⟩

/-- C9 (amended): on receipt of any standard termination signal the process
terminates immediately with the non-zero status 128 + signal number; the
listener is not closed gracefully and in-flight responses are not drained. -/
theorem C9_signal_immediate_exit (sig : Signal) :
    (onSignal sig).exitCode = 128 + sig.number ∧
    (onSignal sig).exitCode ≠ 0 ∧
    (onSignal sig).listenerClosedGracefully = false ∧
    (onSignal sig).inFlightCompleted = false := by
  cases sig <;> exact ⟨rfl, by decide, rfl, rfl⟩

/-- C10: a HEAD request for `/` is served by the GET route: status 200, the
same headers as the GET response (whatever the query, headers and body of
the two requests), and an empty body. -/
theorem C10_head_root (q : String) (hs : List (String × String)) (b : String) :
    (handle { method := Method.HEAD, path := "/", query := q, headers := hs,
              body := b }).status = 200 ∧
    (handle { method := Method.HEAD, path := "/", query := q, headers := hs,
              body := b }).headers =
      (handle { method := Method.GET, path := "/", query := q, headers := hs,
                body := b }).headers ∧
    (handle { method := Method.HEAD, path := "/", query := q, headers := hs,
              body := b }).body = "" :=
  ⟨rfl, rfl, rfl⟩
